import Mathlib

/-!
Shallow embedding of the krr resource-recommendation core:
the fixed-percentage recommendation strategy
(`robusta_krr/strategies/dummy.py`) and the patch-application engine
(`robusta_krr/core/integrations/kubernetes/resource_patch.py`).

Numeric resource quantities are modelled as rationals (`ℚ`); Python's
`int(x)` truncation toward zero is `truncQ`.  Control-plane traffic is
modelled by an explicit trace of `EndpointCall`s together with an oracle
`api : EndpointCall → CallResult` giving each call's outcome.  Python
exceptions are modelled with `Except`.
-/

namespace Krr

/-- Resource types handled by the core (spec section 3: closed enumeration
CPU, Memory). -/
inductive ResourceType where
  | CPU
  | Memory
  deriving DecidableEq, Repr

/-- Modelled from the spec: the textual value of each resource type as it
appears in patch paths (the enum's string values live in
`robusta_krr.core.models.allocations`, which is not part of the embedded
sources; the spec's end-to-end scenario shows the CPU value `"cpu"` inside
`/spec/template/spec/containers/0/resources/requests/cpu`). -/
def ResourceType.value : ResourceType → String
  | .CPU => "cpu"
  | .Memory => "memory"

/-- An entry of an allocations mapping: a numeric value, the `"?"` marker the
strategy code guards against, or unset (Python `None` / missing key).  The
spec's data model calls this "numeric-or-unset". -/
inductive AllocValue where
  | unset
  | question
  | val (x : ℚ)
  deriving DecidableEq, Repr

/-- Current requests and limits of a workload, one entry per resource type
(spec section 3, `Allocations`). -/
structure Allocations where
  requests : ResourceType → AllocValue
  limits : ResourceType → AllocValue

/-- A container of a pod template; the locator only reads its name. -/
structure Container where
  name : String
  deriving DecidableEq, Repr

/-- View of the originally fetched workload object (`_api_resource`): the
container-name lists reachable at `spec.template.spec.containers` and at
`spec.job_template.spec.template.spec.containers`.  The locator reads the
one that matches the workload kind. -/
structure ApiResource where
  templateContainers : List Container
  jobTemplateContainers : List Container
  deriving DecidableEq, Repr

/-- Normalized workload description (`K8sObjectData`).  The source field
`namespace` is called `ns` here because `namespace` is a Lean keyword, and
`_api_resource` is `api_resource`. -/
structure K8sObjectData where
  kind : String
  ns : String
  name : String
  container : String
  allocations : Allocations
  api_resource : Option ApiResource

/-- Severity of a diagnostic log line (`logger.info` / `logger.warning` /
`logger.error`). -/
inductive LogLevel where
  | info
  | warning
  | error
  deriving DecidableEq, Repr

/-- One structural partial-update operation `{op, path, value}`. -/
structure PatchOp where
  op : String
  path : String
  value : String
  deriving DecidableEq, Repr

/-- A control-plane call issued by the dispatcher, one constructor per
client endpoint used in `_patch_workload`. -/
inductive EndpointCall where
  | patch_namespaced_deployment (name ns : String) (body : List PatchOp)
  | patch_namespaced_stateful_set (name ns : String) (body : List PatchOp)
  | patch_namespaced_daemon_set (name ns : String) (body : List PatchOp)
  | patch_namespaced_job (name ns : String) (body : List PatchOp)
  | patch_namespaced_cron_job (name ns : String) (body : List PatchOp)
  | patch_namespaced_custom_object (group version ns plural name : String) (body : List PatchOp)
  deriving DecidableEq, Repr

/-- The patch document submitted by a control-plane call. -/
def EndpointCall.body : EndpointCall → List PatchOp
  | .patch_namespaced_deployment _ _ b => b
  | .patch_namespaced_stateful_set _ _ b => b
  | .patch_namespaced_daemon_set _ _ b => b
  | .patch_namespaced_job _ _ b => b
  | .patch_namespaced_cron_job _ _ b => b
  | .patch_namespaced_custom_object _ _ _ _ _ b => b

/-- Outcome of a control-plane call as seen by the dispatcher: success, a
control-plane-reported `ApiException`, or any other unexpected failure. -/
inductive CallResult where
  | success
  | apiError
  | unexpected
  deriving DecidableEq, Repr

/-- Historical metric series keyed by metric name (spec section 1); the
fixed-percentage strategy never reads it. -/
abbrev MetricsPodData := List (String × List ℚ)

/-- A Python exception escaping an expression (here: formatting a current
value that is unset or the `"?"` marker raises `TypeError`/`ValueError`). -/
inductive PyErr where
  | typeError
  deriving DecidableEq, Repr

/-- Python `int(q)` on a rational: truncation toward zero. -/
def truncQ (q : ℚ) : ℤ :=
  q.num.tdiv q.den

/-- Binary-prefixed unit suffixes for memory quantities. -/
def binUnits : List String := ["", "Ki", "Mi", "Gi", "Ti", "Pi"]

/-- Helper for `format_resource`: repeatedly divide an integral byte count
by 1024 while that stays exact, moving to the next binary unit. -/
def formatBin : Nat → ℤ → Nat → String
  | 0, n, unitIdx => toString n ++ binUnits.getD unitIdx ""
  | fuel + 1, n, unitIdx =>
    if n % 1024 = 0 ∧ 1024 ≤ n then formatBin fuel (n / 1024) (unitIdx + 1)
    else toString n ++ binUnits.getD unitIdx ""

/-- Modelled from the spec: the Memory branch of `ResourceValueFormatter`
(`robusta_krr.utils.resource_units.format`, not part of the embedded
sources): "convert the byte count to the largest binary-prefixed unit that
yields a clean representation, e.g., 134217728 → 128Mi"; pure and total
over numeric input. -/
def format_resource (v : ℚ) : String :=
  if v.den = 1 then formatBin 5 v.num 0 else toString v

/-- The `ResourceValueFormatter` as used when the applier builds a patch:
CPU values are converted to millicores by truncation (`f"{int(value * 1000)}m"`),
Memory values go through `format_resource`. -/
def formatValue (resource_type : ResourceType) (value : ℚ) : String :=
  match resource_type with
  | .CPU => toString (truncQ (value * 1000)) ++ "m"
  | .Memory => format_resource value

/-- Formatting the current allocation value for the log line.  Python
raises (`TypeError`/`ValueError`) when the value is `None` or `"?"`:
`int(None * 1000)` and `format_resource(None)` both raise; the exception is
caught by the caller's catch-all. -/
def formatCurrent (resource_type : ResourceType) (current : AllocValue) : Except PyErr String :=
  match current with
  | .val x => .ok (formatValue resource_type x)
  | _ => .error .typeError

/-- Linear scan of `_get_container_index`: index of the first container
whose name equals the target, if any. -/
def findContainerIndex : List Container → String → Option Nat
  | [], _ => none
  | c :: rest, target =>
    if c.name = target then some 0
    else (findContainerIndex rest target).map (· + 1)

/-- Match step of `_get_container_index` once the container list is in
hand: first matching index, else warn and return 0. -/
def matchContainers (containers : List Container) (target : String) : Nat × List LogLevel :=
  match findContainerIndex containers target with
  | some i => (i, [])
  | none => (0, [.warning])

/-- Embedding of `ResourcePatcher._get_container_index`: find the index of
the target container, returning the index together with the levels of the
log lines it emits.  Absent raw handle logs an error and yields 0; an
unsupported kind or a missing name logs a warning and yields 0.  The
source wraps everything in a catch-all that also yields 0. -/
def get_container_index (object_data : K8sObjectData) : Nat × List LogLevel :=
  match object_data.api_resource with
  | none => (0, [.error])
  | some api_resource =>
    if object_data.kind = "CronJob" then
      matchContainers api_resource.jobTemplateContainers object_data.container
    else if object_data.kind ∈ ["Deployment", "StatefulSet", "DaemonSet", "Job"] then
      matchContainers api_resource.templateContainers object_data.container
    else (0, [.warning])

/-- Embedding of `ResourcePatcher._build_container_path`: the JSON path to
the container list for a workload kind, defaulting (with a warning in the
source) to the pod-template path for unknown kinds. -/
def build_container_path (kind : String) : String :=
  if kind = "CronJob" then
    "/spec/jobTemplate/spec/template/spec/containers"
  else if kind ∈ ["Deployment", "StatefulSet", "DaemonSet"] then
    "/spec/template/spec/containers"
  else if kind = "Job" then
    "/spec/template/spec/containers"
  else if kind ∈ ["Rollout", "DeploymentConfig"] then
    "/spec/template/spec/containers"
  else
    "/spec/template/spec/containers"

/-- Embedding of `ResourcePatcher._build_resource_patch`: one replace
operation on the requests sub-path of the given container. -/
def build_resource_patch (container_index : Nat) (resource_type : ResourceType) (value : ℚ) : PatchOp :=
  { op := "replace"
    path := "/spec/template/spec/containers/" ++ toString container_index
      ++ "/resources/requests/" ++ resource_type.value
    value := formatValue resource_type value }

/-- Issuing one control-plane call inside `_patch_workload`: the call is
recorded in the trace; success yields `true`, while an `ApiException` or
any other exception is caught by the source's handlers and yields
`false`. -/
def runCall (api : EndpointCall → CallResult) (c : EndpointCall) : List EndpointCall × Bool :=
  ([c], match api c with
        | .success => true
        | .apiError => false
        | .unexpected => false)

/-- Embedding of `ResourcePatcher._patch_workload`: route the patch to the
endpoint matching the workload kind, returning the trace of control-plane
calls issued and the boolean outcome.  An unrecognized kind logs an error
and returns `false` with no call. -/
def patch_workload (object_data : K8sObjectData) (patch : List PatchOp)
    (api : EndpointCall → CallResult) : List EndpointCall × Bool :=
  if object_data.kind = "Deployment" then
    runCall api (.patch_namespaced_deployment object_data.name object_data.ns patch)
  else if object_data.kind = "StatefulSet" then
    runCall api (.patch_namespaced_stateful_set object_data.name object_data.ns patch)
  else if object_data.kind = "DaemonSet" then
    runCall api (.patch_namespaced_daemon_set object_data.name object_data.ns patch)
  else if object_data.kind = "Job" then
    runCall api (.patch_namespaced_job object_data.name object_data.ns patch)
  else if object_data.kind = "CronJob" then
    runCall api (.patch_namespaced_cron_job object_data.name object_data.ns patch)
  else if object_data.kind = "Rollout" then
    runCall api (.patch_namespaced_custom_object "argoproj.io" "v1alpha1"
      object_data.ns "rollouts" object_data.name patch)
  else if object_data.kind = "DeploymentConfig" then
    runCall api (.patch_namespaced_custom_object "apps.openshift.io" "v1"
      object_data.ns "deploymentconfigs" object_data.name patch)
  else if object_data.kind = "StrimziPodSet" then
    runCall api (.patch_namespaced_custom_object "core.strimzi.io" "v1beta2"
      object_data.ns "strimzipodsets" object_data.name patch)
  else
    ([], false)

/-- The try-block of `ResourcePatcher.apply_resource_recommendation`, with
exceptions propagating as `Except.error`.  Faithful to the source order:
the non-Deployment policy skip, container-index lookup, patch-path
construction (the CronJob substitution is kept although unreachable behind
the Deployment check), formatting of the recommended and current values
(the latter raising on unset/`"?"`), patch construction, and either the
dry-run short-circuit (source: `if not dry_run ... else: return True`) or
dispatch through `_patch_workload`. -/
def applyExc (object_data : K8sObjectData) (resource_type : ResourceType)
    (recommended_value : ℚ) (dry_run : Bool) (api : EndpointCall → CallResult) :
    Except PyErr (List EndpointCall × Bool) :=
  if object_data.kind ≠ "Deployment" then
    .ok ([], false)
  else
    let container_index := (get_container_index object_data).1
    let patch_path :=
      if object_data.kind = "CronJob" then
        "/spec/jobTemplate/spec/template/spec/containers/" ++ toString container_index
          ++ "/resources/requests/" ++ resource_type.value
      else
        "/spec/template/spec/containers/" ++ toString container_index
          ++ "/resources/requests/" ++ resource_type.value
    let current_value := object_data.allocations.requests resource_type
    let resource_value := formatValue resource_type recommended_value
    match formatCurrent resource_type current_value with
    | .error e => .error e
    | .ok _current_str =>
      let patch : List PatchOp := [{ op := "replace", path := patch_path, value := resource_value }]
      if dry_run then .ok ([], true)
      else .ok (patch_workload object_data patch api)

/-- Embedding of `ResourcePatcher.apply_resource_recommendation`: the
try-block `applyExc` wrapped in the source's catch-all, which logs and
converts any exception into a `false` return (no call having been made at
the raise point). -/
def apply_resource_recommendation (object_data : K8sObjectData) (resource_type : ResourceType)
    (recommended_value : ℚ) (dry_run : Bool) (api : EndpointCall → CallResult) :
    List EndpointCall × Bool :=
  match applyExc object_data resource_type recommended_value dry_run api with
  | .ok r => r
  | .error _ => ([], false)

/-- A control plane on which every call succeeds. -/
def apiAllSuccess : EndpointCall → CallResult := fun _ => .success

/-- The per-resource recommendation of the fixed-percentage strategy
(`ResourceRecommendation` in `robusta_krr.core.abstract.strategies`).
Modelled from the spec: "undefined is a distinct terminal state meaning no
recommendation possible, distinguishable from a recommendation of zero"
(the defining module is not part of the embedded sources). -/
inductive ResourceRecommendation where
  | recommendation (request : Option ℚ) (limit : Option ℚ) (info : String)
  | undefined (info : String)
  deriving DecidableEq, Repr

namespace DummyStrategy

/-- Embedding of `DummyStrategy.__calculate_cpu_recommendation`: reduce the
current CPU request and limit by the configured percentage; a current value
participates only when it is numeric (not `None`, not `"?"`) and strictly
positive; if neither participates, return the undefined recommendation. -/
def calculate_cpu_recommendation (reduction_percentage : ℚ) (object_data : K8sObjectData) :
    ResourceRecommendation :=
  let current_request := object_data.allocations.requests .CPU
  let current_limit := object_data.allocations.limits .CPU
  let reduction_factor := 1 - reduction_percentage / 100
  let recommended_request : Option ℚ :=
    match current_request with
    | .val x => if 0 < x then some (x * reduction_factor) else none
    | _ => none
  let recommended_limit : Option ℚ :=
    match current_limit with
    | .val y => if 0 < y then some (y * reduction_factor) else none
    | _ => none
  match recommended_request, recommended_limit with
  | none, none => .undefined "No current CPU allocation defined"
  | rr, rl =>
    .recommendation rr rl
      ("Reduced by " ++ toString reduction_percentage ++ "% from current allocation")

/-- Embedding of `DummyStrategy.__calculate_memory_recommendation`: same
algorithm as the CPU variant, over the Memory allocations. -/
def calculate_memory_recommendation (reduction_percentage : ℚ) (object_data : K8sObjectData) :
    ResourceRecommendation :=
  let current_request := object_data.allocations.requests .Memory
  let current_limit := object_data.allocations.limits .Memory
  let reduction_factor := 1 - reduction_percentage / 100
  let recommended_request : Option ℚ :=
    match current_request with
    | .val x => if 0 < x then some (x * reduction_factor) else none
    | _ => none
  let recommended_limit : Option ℚ :=
    match current_limit with
    | .val y => if 0 < y then some (y * reduction_factor) else none
    | _ => none
  match recommended_request, recommended_limit with
  | none, none => .undefined "No current Memory allocation defined"
  | rr, rl =>
    .recommendation rr rl
      ("Reduced by " ++ toString reduction_percentage ++ "% from current allocation")

/-- Embedding of `DummyStrategy.run`: one recommendation per resource
type; the history data (source binder `history_data`) is never
consulted. -/
def run (reduction_percentage : ℚ) (_history_data : MetricsPodData)
    (object_data : K8sObjectData) : ResourceType → ResourceRecommendation
  | .CPU => calculate_cpu_recommendation reduction_percentage object_data
  | .Memory => calculate_memory_recommendation reduction_percentage object_data

end DummyStrategy

/-! Concrete fixtures used by the end-to-end theorem, witnesses and
counterexamples. -/

/-- Allocations of the end-to-end scenario: current CPU request 0.5 cores,
everything else unset. -/
def webAllocations : Allocations where
  requests := fun rt => match rt with
    | .CPU => .val (1 / 2)
    | .Memory => .unset
  limits := fun _ => .unset

/-- The end-to-end scenario workload: Deployment `web` in namespace `prod`
whose target container `app` sits at index 0 of the pod-template container
list. -/
def webWorkload : K8sObjectData where
  kind := "Deployment"
  ns := "prod"
  name := "web"
  container := "app"
  allocations := webAllocations
  api_resource := some { templateContainers := [{ name := "app" }], jobTemplateContainers := [] }

/-- A Deployment whose current allocations are all unset and whose raw
handle is absent. -/
def noReqWorkload : K8sObjectData where
  kind := "Deployment"
  ns := "prod"
  name := "web"
  container := "app"
  allocations := { requests := fun _ => .unset, limits := fun _ => .unset }
  api_resource := none

/-- A CronJob workload, used to exercise the policy skip. -/
def cronWorkload : K8sObjectData where
  kind := "CronJob"
  ns := "prod"
  name := "nightly"
  container := "app"
  allocations := webAllocations
  api_resource := some { templateContainers := [], jobTemplateContainers := [{ name := "app" }] }

/-- A workload of a kind unknown to the dispatcher. -/
def rsWorkload : K8sObjectData where
  kind := "ReplicaSet"
  ns := "prod"
  name := "web-rs"
  container := "app"
  allocations := webAllocations
  api_resource := none

/-- A StrimziPodSet workload with a raw handle present; its kind is not
one the container locator supports. -/
def strimziWorkload : K8sObjectData where
  kind := "StrimziPodSet"
  ns := "prod"
  name := "kafka"
  container := "app"
  allocations := webAllocations
  api_resource := some { templateContainers := [], jobTemplateContainers := [] }

/-! Theorems settling the spec claims. -/

/-- C2: for every workload whose kind is not Deployment, every resource
type, every recommended value, and both values of the dry-run flag, apply
returns false and performs no control-plane call (empty trace). -/
theorem apply_non_deployment_skips (w : K8sObjectData) (rt : ResourceType)
    (v : ℚ) (d : Bool) (api : EndpointCall → CallResult)
    (h : w.kind ≠ "Deployment") :
    apply_resource_recommendation w rt v d api = ([], false) := by
  unfold apply_resource_recommendation applyExc
  rw [if_pos h]

/-- C2 witness: a CronJob is skipped with a false return and no call. -/
theorem apply_non_deployment_skips_witness :
    apply_resource_recommendation cronWorkload .CPU (9 / 20) false apiAllSuccess = ([], false) :=
  apply_non_deployment_skips cronWorkload .CPU (9 / 20) false apiAllSuccess (by decide)

/-- C6: apply never propagates an exception: whenever the try-block raises,
the catch-all converts the outcome to a false return with no call, and
whenever the try-block completes, apply returns its result unchanged, so
apply always returns a boolean outcome. -/
theorem apply_catches_exceptions (w : K8sObjectData) (rt : ResourceType)
    (v : ℚ) (d : Bool) (api : EndpointCall → CallResult) :
    (∀ e, applyExc w rt v d api = .error e →
      apply_resource_recommendation w rt v d api = ([], false))
    ∧ (∀ r, applyExc w rt v d api = .ok r →
      apply_resource_recommendation w rt v d api = r) := by
  constructor <;> intro x hx <;> unfold apply_resource_recommendation <;> rw [hx]

/-- C6 witness: formatting the unset current CPU request raises, and apply
converts the exception into a false return. -/
theorem apply_catches_exceptions_witness :
    apply_resource_recommendation noReqWorkload .CPU 1 true apiAllSuccess = ([], false) :=
  (apply_catches_exceptions noReqWorkload .CPU 1 true apiAllSuccess).1 .typeError rfl

/-- C7: the dispatcher, given a workload of a kind it does not recognize,
returns false with an empty call trace (and, being a total function, does
not raise). -/
theorem patch_workload_unknown_kind (w : K8sObjectData) (patch : List PatchOp)
    (api : EndpointCall → CallResult)
    (h : w.kind ∉ (["Deployment", "StatefulSet", "DaemonSet", "Job", "CronJob",
      "Rollout", "DeploymentConfig", "StrimziPodSet"] : List String)) :
    patch_workload w patch api = ([], false) := by
  simp only [List.mem_cons, List.mem_singleton, not_or] at h
  obtain ⟨h1, h2, h3, h4, h5, h6, h7, h8⟩ := h
  unfold patch_workload
  simp [h1, h2, h3, h4, h5, h6, h7, h8]

/-- C7 witness: a ReplicaSet is not dispatched. -/
theorem patch_workload_unknown_kind_witness :
    patch_workload rsWorkload [] apiAllSuccess = ([], false) :=
  patch_workload_unknown_kind rsWorkload [] apiAllSuccess (by decide)

/-- Truncation toward zero agrees with the floor on nonnegative
rationals. -/
lemma truncQ_eq_floor (q : ℚ) (hq : 0 ≤ q) : truncQ q = ⌊q⌋ := by
  rw [truncQ, Rat.floor_def]
  exact Int.tdiv_eq_ediv (Rat.num_nonneg.mpr hq) (Int.natCast_nonneg _)

/-- C5: for every numeric value v ≥ 0, the CPU formatting used when
building a patch is exactly the truncation of v·1000 concatenated with
"m" (truncation, not rounding); in particular 0.0005 cores formats to
"0m". -/
theorem cpu_format_truncates :
    (∀ v : ℚ, 0 ≤ v → formatValue .CPU v = toString ⌊v * 1000⌋ ++ "m")
    ∧ formatValue .CPU (1 / 2000) = "0m" := by
  have key : ∀ v : ℚ, 0 ≤ v → formatValue .CPU v = toString ⌊v * 1000⌋ ++ "m" := by
    intro v hv
    show toString (truncQ (v * 1000)) ++ "m" = _
    rw [truncQ_eq_floor _ (by positivity)]
  refine ⟨key, ?_⟩
  rw [key _ (by norm_num), show (1 : ℚ) / 2000 * 1000 = 1 / 2 by norm_num,
    show ⌊(1 : ℚ) / 2⌋ = 0 by norm_num]
  rfl

/-- C5 witness: the general truncation law at the concrete value 0.9
cores. -/
theorem cpu_format_truncates_witness :
    formatValue .CPU (9 / 10) = toString ⌊(9 : ℚ) / 10 * 1000⌋ ++ "m" :=
  cpu_format_truncates.1 (9 / 10) (by norm_num)

/-- A linear scan over containers none of whose names match finds
nothing. -/
lemma findContainerIndex_eq_none (cs : List Container) (target : String)
    (h : ∀ c ∈ cs, c.name ≠ target) : findContainerIndex cs target = none := by
  induction cs with
  | nil => rfl
  | cons c rest ih =>
    unfold findContainerIndex
    rw [if_neg (h c (List.mem_cons_self c rest))]
    rw [ih fun c' hc' => h c' (List.mem_cons_of_mem c hc')]
    rfl

/-- C8 counterexample: with the raw handle absent the locator returns 0
but logs an error, not a warning — the claim asserts a warning is logged
in all three cases. -/
theorem locator_absent_handle_logs_error :
    get_container_index noReqWorkload = (0, [LogLevel.error])
    ∧ LogLevel.warning ∉ (get_container_index noReqWorkload).2 := by
  exact ⟨rfl, by decide⟩

/-- C8 (amended): the locator returns index 0 and never raises in each of
the three degradation cases; the absent-raw-handle case logs an error
while the unsupported-kind and no-name-match cases log warnings. -/
theorem locator_defaults_to_zero (w : K8sObjectData) :
    (w.api_resource = none → get_container_index w = (0, [.error]))
    ∧ (∀ res, w.api_resource = some res →
        w.kind ∉ (["CronJob", "Deployment", "StatefulSet", "DaemonSet", "Job"] : List String) →
        get_container_index w = (0, [.warning]))
    ∧ (∀ res, w.api_resource = some res →
        w.kind ∈ (["CronJob", "Deployment", "StatefulSet", "DaemonSet", "Job"] : List String) →
        (∀ c ∈ (if w.kind = "CronJob" then res.jobTemplateContainers
                else res.templateContainers), c.name ≠ w.container) →
        get_container_index w = (0, [.warning])) := by
  refine ⟨fun h => by simp [get_container_index, h], ?_, ?_⟩
  · intro res hres hk
    simp only [List.mem_cons, List.mem_singleton, not_or] at hk
    obtain ⟨h1, h2, h3, h4, h5⟩ := hk
    simp [get_container_index, hres, h1, h2, h3, h4, h5]
  · intro res hres hk hnone
    simp only [get_container_index, hres]
    by_cases hcj : w.kind = "CronJob"
    · rw [if_pos hcj, matchContainers,
        findContainerIndex_eq_none _ _ (by simpa [hcj] using hnone)]
    · rw [if_neg hcj]
      have hmem : w.kind ∈ (["Deployment", "StatefulSet", "DaemonSet", "Job"] : List String) := by
        simp only [List.mem_cons, List.mem_singleton] at hk ⊢
        tauto
      rw [if_pos hmem, matchContainers,
        findContainerIndex_eq_none _ _ (by simpa [hcj] using hnone)]

/-- C8 witness: the unsupported-kind case at a concrete StrimziPodSet with
a raw handle present: index 0 and a warning. -/
theorem locator_defaults_to_zero_witness :
    get_container_index strimziWorkload = (0, [.warning]) :=
  (locator_defaults_to_zero strimziWorkload).2.1 _ rfl (by decide)

/-- C3 counterexample: a Deployment (eligible kind) whose current CPU
request is unset: apply with dryRun=true returns false, not true — the
current-value formatting raises and the catch-all converts it to false. -/
theorem apply_dry_run_unset_request_false :
    noReqWorkload.kind = "Deployment"
    ∧ apply_resource_recommendation noReqWorkload .CPU (9 / 20) true apiAllSuccess = ([], false) :=
  ⟨rfl, rfl⟩

/-- C3 (amended): for a workload of the eligible kind (Deployment), apply
with dryRun=true never issues a control-plane call; it returns true
whenever the workload's current request for the resource type is present
as a numeric value, and it returns false whenever that current value is
unset or the `"?"` marker (the formatting of the current value raises and
the catch-all converts the exception to a false return). -/
theorem apply_dry_run_no_call (w : K8sObjectData) (rt : ResourceType)
    (v : ℚ) (api : EndpointCall → CallResult)
    (hk : w.kind = "Deployment") :
    (apply_resource_recommendation w rt v true api).1 = []
    ∧ (∀ x, w.allocations.requests rt = .val x →
        apply_resource_recommendation w rt v true api = ([], true))
    ∧ ((w.allocations.requests rt = .unset ∨ w.allocations.requests rt = .question) →
        apply_resource_recommendation w rt v true api = ([], false)) := by
  unfold apply_resource_recommendation applyExc
  rw [if_neg (by simp [hk])]
  refine ⟨?_, ?_, ?_⟩
  · rcases hreq : w.allocations.requests rt with _ | _ | x <;>
      simp [formatCurrent, hreq]
  · intro x hx
    simp [formatCurrent, hx]
  · rintro (hx | hx) <;> simp [formatCurrent, hx]

/-- C3 witness: dry-run on the end-to-end workload (numeric current
request) returns true with no call, and dry-run on the Deployment with an
unset current request returns false with no call. -/
theorem apply_dry_run_no_call_witness :
    apply_resource_recommendation webWorkload .CPU (9 / 20) true apiAllSuccess = ([], true)
    ∧ apply_resource_recommendation noReqWorkload .CPU (9 / 20) true apiAllSuccess = ([], false) :=
  ⟨(apply_dry_run_no_call webWorkload .CPU (9 / 20) apiAllSuccess rfl).2.1 (1 / 2) rfl,
   (apply_dry_run_no_call noReqWorkload .CPU (9 / 20) apiAllSuccess rfl).2.2 (Or.inl rfl)⟩

/-- Common shape of the two per-resource calculations of the
fixed-percentage strategy, abstracted over the current request `A`, the
current limit `B` and the two info strings: a current value participates
only when it is numeric and strictly positive, each participating value is
scaled by `1 - p/100` independently, and the result is the undefined
recommendation exactly when neither value participates. -/
lemma calc_shape (p : ℚ) (A B : AllocValue) (infoU infoR : String)
    (f : ResourceRecommendation)
    (hf : f =
      match
        (match A with
          | .val x => if 0 < x then some (x * (1 - p / 100)) else none
          | _ => none),
        (match B with
          | .val y => if 0 < y then some (y * (1 - p / 100)) else none
          | _ => none) with
      | none, none => .undefined infoU
      | rr, rl => .recommendation rr rl infoR) :
    (∀ x, A = .val x → 0 < x →
      ∃ l i, f = .recommendation (some (x * (1 - p / 100))) l i)
    ∧ (∀ y, B = .val y → 0 < y →
      ∃ r i, f = .recommendation r (some (y * (1 - p / 100))) i)
    ∧ ((∃ i, f = .undefined i)
        ↔ ¬(∃ x, A = .val x ∧ 0 < x) ∧ ¬(∃ y, B = .val y ∧ 0 < y)) := by
  subst hf
  refine ⟨?_, ?_, ?_⟩
  · intro x hx hpos
    subst hx
    dsimp only
    rw [if_pos hpos]
    exact ⟨_, _, rfl⟩
  · intro y hy hpos
    subst hy
    dsimp only
    rw [if_pos hpos]
    rcases A with _ | _ | x
    · exact ⟨_, _, rfl⟩
    · exact ⟨_, _, rfl⟩
    · dsimp only
      split_ifs <;> exact ⟨_, _, rfl⟩
  · constructor
    · rintro ⟨i, hi⟩
      constructor
      · rintro ⟨x, hx, hpos⟩
        subst hx
        dsimp only at hi
        rw [if_pos hpos] at hi
        simp at hi
      · rintro ⟨y, hy, hpos⟩
        subst hy
        dsimp only at hi
        rw [if_pos hpos] at hi
        rcases A with _ | _ | x
        · simp at hi
        · simp at hi
        · dsimp only at hi
          split_ifs at hi
    · rintro ⟨hnx, hny⟩
      rcases A with _ | _ | x <;> rcases B with _ | _ | y <;> dsimp only
      · exact ⟨_, rfl⟩
      · exact ⟨_, rfl⟩
      · rcases lt_or_le 0 y with hy | hy
        · exact absurd ⟨y, rfl, hy⟩ hny
        · rw [if_neg (not_lt.mpr hy)]
          exact ⟨_, rfl⟩
      · exact ⟨_, rfl⟩
      · exact ⟨_, rfl⟩
      · rcases lt_or_le 0 y with hy | hy
        · exact absurd ⟨y, rfl, hy⟩ hny
        · rw [if_neg (not_lt.mpr hy)]
          exact ⟨_, rfl⟩
      · rcases lt_or_le 0 x with hx | hx
        · exact absurd ⟨x, rfl, hx⟩ hnx
        · rw [if_neg (not_lt.mpr hx)]
          exact ⟨_, rfl⟩
      · rcases lt_or_le 0 x with hx | hx
        · exact absurd ⟨x, rfl, hx⟩ hnx
        · rw [if_neg (not_lt.mpr hx)]
          exact ⟨_, rfl⟩
      · rcases lt_or_le 0 x with hx | hx
        · exact absurd ⟨x, rfl, hx⟩ hnx
        · rcases lt_or_le 0 y with hy | hy
          · exact absurd ⟨y, rfl, hy⟩ hny
          · rw [if_neg (not_lt.mpr hx), if_neg (not_lt.mpr hy)]
            exact ⟨_, rfl⟩

/-- C4: for the fixed-percentage strategy with percentage p in (0, 100]
and each resource type, run scales the current request by 1 − p/100
whenever it is present and strictly positive, independently scales the
current limit likewise, and returns the undefined terminal recommendation
(never a numeric zero) exactly when neither current value is present and
strictly positive. -/
theorem dummy_run_reduction (p : ℚ) (_hp : 0 < p) (_hp100 : p ≤ 100)
    (history : MetricsPodData) (w : K8sObjectData) (rt : ResourceType) :
    (∀ x, w.allocations.requests rt = .val x → 0 < x →
      ∃ l i, DummyStrategy.run p history w rt
        = .recommendation (some (x * (1 - p / 100))) l i)
    ∧ (∀ y, w.allocations.limits rt = .val y → 0 < y →
      ∃ r i, DummyStrategy.run p history w rt
        = .recommendation r (some (y * (1 - p / 100))) i)
    ∧ ((∃ i, DummyStrategy.run p history w rt = .undefined i)
        ↔ ¬(∃ x, w.allocations.requests rt = .val x ∧ 0 < x)
          ∧ ¬(∃ y, w.allocations.limits rt = .val y ∧ 0 < y)) := by
  cases rt
  · exact calc_shape p (w.allocations.requests .CPU) (w.allocations.limits .CPU) _ _ _ rfl
  · exact calc_shape p (w.allocations.requests .Memory) (w.allocations.limits .Memory) _ _ _ rfl

/-- C4 witness: at percentage 10 and the end-to-end workload (current CPU
request 0.5, limit unset), the recommended request is 0.5·(1 − 10/100). -/
theorem dummy_run_reduction_witness :
    ∃ l i, DummyStrategy.run 10 [] webWorkload .CPU
      = .recommendation (some ((1 / 2) * (1 - 10 / 100))) l i :=
  (dummy_run_reduction 10 (by norm_num) (by norm_num) [] webWorkload .CPU).1
    (1 / 2) rfl (by norm_num)

/-- CPU formatting of the recommended value 0.45 cores. -/
lemma web_format_eval : formatValue .CPU ((9 : ℚ) / 20) = "450m" := by
  unfold formatValue
  rw [show (9 : ℚ) / 20 * 1000 = 450 by norm_num]
  rfl

/-- The strategy at percentage 10 on the end-to-end workload: the current
CPU request 0.5 is reduced to 0.45, the limit stays absent. -/
lemma web_run_eval :
    DummyStrategy.run 10 [] webWorkload .CPU
      = .recommendation (some (9 / 20)) none "Reduced by 10% from current allocation" := by
  show DummyStrategy.calculate_cpu_recommendation 10 webWorkload = _
  unfold DummyStrategy.calculate_cpu_recommendation
  dsimp only [webWorkload, webAllocations]
  rw [if_pos (by norm_num : (0 : ℚ) < 1 / 2)]
  rw [show (1 / 2 : ℚ) * (1 - 10 / 100) = 9 / 20 by norm_num]
  rfl

/-- The applier on the end-to-end workload: one replace operation on the
container-0 CPU requests path, dispatched through the deployment-update
endpoint, returning true. -/
lemma web_apply_eval :
    apply_resource_recommendation webWorkload .CPU (9 / 20) false apiAllSuccess
      = ([.patch_namespaced_deployment "web" "prod"
          [{ op := "replace",
             path := "/spec/template/spec/containers/0/resources/requests/cpu",
             value := "450m" }]], true) := by
  have h : apply_resource_recommendation webWorkload .CPU (9 / 20) false apiAllSuccess
      = ([.patch_namespaced_deployment "web" "prod"
          [{ op := "replace",
             path := "/spec/template/spec/containers/0/resources/requests/cpu",
             value := formatValue .CPU ((9 : ℚ) / 20) }]], true) := rfl
  rw [h, web_format_eval]

/-- C1: end-to-end scenario: for the Deployment `web` in namespace `prod`
with target container `app` at index 0 and current CPU request 0.5 cores,
at reduction percentage 10 the strategy recommends request 0.45 cores, the
applier formats it as "450m", builds the single replace operation on
`/spec/template/spec/containers/0/resources/requests/cpu`, dispatches it
through the deployment-update endpoint, and returns true on a successful
control-plane call. -/
theorem end_to_end_deployment_cpu :
    DummyStrategy.run 10 [] webWorkload .CPU
      = .recommendation (some (9 / 20)) none "Reduced by 10% from current allocation"
    ∧ formatValue .CPU ((9 : ℚ) / 20) = "450m"
    ∧ apply_resource_recommendation webWorkload .CPU (9 / 20) false apiAllSuccess
      = ([.patch_namespaced_deployment "web" "prod"
          [{ op := "replace",
             path := "/spec/template/spec/containers/0/resources/requests/cpu",
             value := "450m" }]], true) :=
  ⟨web_run_eval, web_format_eval, web_apply_eval⟩

/-- C10: every control-plane call the applier ever issues carries a patch
document of exactly one operation, a replace on the requests sub-path of
exactly one container for the given resource type; no limits path is ever
constructed, so the limit component of a recommendation is never
applied. -/
theorem apply_patch_single_replace (w : K8sObjectData) (rt : ResourceType)
    (v : ℚ) (d : Bool) (api : EndpointCall → CallResult) (c : EndpointCall)
    (hc : c ∈ (apply_resource_recommendation w rt v d api).1) :
    ∃ (i : ℕ) (s : String), c.body = [PatchOp.mk "replace"
      ("/spec/template/spec/containers/" ++ toString i
        ++ "/resources/requests/" ++ rt.value) s] := by
  unfold apply_resource_recommendation applyExc at hc
  by_cases hk : w.kind = "Deployment"
  · rw [if_neg (by simp [hk])] at hc
    dsimp only at hc
    rcases hfc : formatCurrent rt (w.allocations.requests rt) with e | s
    · rw [hfc] at hc
      simp at hc
    · rw [hfc] at hc
      cases d
      · rw [if_neg (by decide : ¬(false = true))] at hc
        unfold patch_workload at hc
        rw [if_pos hk] at hc
        unfold runCall at hc
        dsimp only at hc
        rw [List.mem_singleton] at hc
        subst hc
        refine ⟨(get_container_index w).1, formatValue rt v, ?_⟩
        simp [EndpointCall.body, hk]
      · simp at hc
  · rw [if_pos hk] at hc
    simp at hc

/-- C10 witness: the call issued in the end-to-end scenario carries
exactly one replace operation on the container-0 CPU requests path. -/
theorem apply_patch_single_replace_witness :
    ∃ (i : ℕ) (s : String),
      (EndpointCall.patch_namespaced_deployment "web" "prod"
        [PatchOp.mk "replace"
          "/spec/template/spec/containers/0/resources/requests/cpu" "450m"]).body
      = [PatchOp.mk "replace"
          ("/spec/template/spec/containers/" ++ toString i
            ++ "/resources/requests/" ++ ResourceType.value .CPU) s] :=
  apply_patch_single_replace webWorkload .CPU (9 / 20) false apiAllSuccess _
    (by simp [web_apply_eval])

/-- C9: the patch-path resolver maps CronJob to the job-template-nested
container path and every other kind — the six explicitly routed ones and
any unknown kind alike — to the standard pod-template container path. -/
theorem build_container_path_mapping (kind : String) :
    build_container_path kind =
      if kind = "CronJob" then "/spec/jobTemplate/spec/template/spec/containers"
      else "/spec/template/spec/containers" := by
  unfold build_container_path
  split_ifs <;> rfl

end Krr
